import Mathlib

/-!
Verification development for the hdhr-proxy gateway.

The definitions below are a shallow embedding of the Go sources:
  - `internal/proxy/proxy.go` (device-id reversal, response rewriting,
    response streaming of the API proxy), and
  - `internal/media/transcoder/transcoder.go` (capability map, stream
    registry, FFmpeg stderr diagnostics, inactivity sweep).

Go strings are modelled as `List Char` (rune sequences), Go maps as
association lists with last-write-wins assignment, `time.Time` /
`time.Duration` values as `Int` nanoseconds, and Go `int32` counters as
`Int` with an explicit two's-complement wrap where the source uses
`sync/atomic` 32-bit operations.  Side effects that matter to the claims
(killing a subprocess, emitting a log line) are returned explicitly as
lists of `Effect` values.
-/

section AssocMap

variable {α : Type} {β : Type} [DecidableEq α]

/-- Lookup in a Go map modelled as an association list: the first binding
of the key wins. -/
def alookup (k : α) : List (α × β) → Option β
  | [] => none
  | (a, b) :: t => if a = k then some b else alookup k t

/-- Remove every binding of a key; `aset` keeps at most one binding per
key, so this models `delete(m, k)` on a Go map. -/
def aerase (k : α) : List (α × β) → List (α × β)
  | [] => []
  | (a, b) :: t => if a = k then aerase k t else (a, b) :: aerase k t

/-- Go map assignment `m[k] = v`: overwrite any previous binding. -/
def aset (k : α) (v : β) (l : List (α × β)) : List (α × β) :=
  (k, v) :: aerase k l

end AssocMap

section GoStrings

/-- `pfxMatch pat s` holds when `pat` is an initial segment of `s`;
this models Go's bounds-checked slice comparison
`i <= len(s)-len(pat) && s[i:i+len(pat)] == pat` at position `i`. -/
def pfxMatch : List Char → List Char → Bool
  | [], _ => true
  | _ :: _, [] => false
  | a :: ps, b :: cs => a == b && pfxMatch ps cs

/-- Go `strings.Contains(haystack, needle)`. -/
def listContains (haystack needle : List Char) : Bool :=
  pfxMatch needle haystack ||
    match haystack with
    | [] => false
    | _ :: t => listContains t needle

/-- Go `strings.Split(s, sep)` for a one-character separator. -/
def splitOn (sep : Char) : List Char → List (List Char)
  | [] => [[]]
  | c :: t =>
    let r := splitOn sep t
    if c = sep then [] :: r
    else
      match r with
      | [] => [[c]]
      | h :: t2 => (c :: h) :: t2

/-- Go `strings.ToUpper` restricted to its ASCII action, which is all the
comparisons in the sources depend on. -/
def listToUpper (l : List Char) : List Char := l.map Char.toUpper

/-- Go `strings.ToLower` restricted to its ASCII action. -/
def listToLower (l : List Char) : List Char := l.map Char.toLower

end GoStrings

section DeviceID

/-- `HDHRProxy.ReverseDeviceID` (proxy.go:67-73): the two-pointer swap
loop over `[]rune(deviceID)` computes the rune reversal of the string. -/
def reverseDeviceID (deviceID : List Char) : List Char :=
  deviceID.reverse

end DeviceID

section ResponseRewrite

/-- The character-level replacement loop of
`HDHRProxy.transformResponseBody` (proxy.go:192-232).  One position is
examined per iteration; the first matching pattern (device id, then
tuner-ip:5004, then bare tuner ip, then the literal `AC4`) is rewritten
and skipped, otherwise one character is copied.  The `fuel` counter is
the number of remaining loop iterations; every branch of the Go loop
advances `i` by at least one when the patterns are nonempty (they always
are: the device id defaults to `"00ABCDEF"` and the tuner address is a
validated nonempty host), so `fuel = content.length` never runs out. -/
def transformLoop (dID rID ipPort hostNamePort ip hostWithPort : List Char) :
    Nat → List Char → List Char
  | 0, _ => []
  | _, [] => []
  | Nat.succ f, c :: rest =>
    if pfxMatch dID (c :: rest) then
      rID ++ transformLoop dID rID ipPort hostNamePort ip hostWithPort f
        ((c :: rest).drop dID.length)
    else if pfxMatch ipPort (c :: rest) then
      hostNamePort ++ transformLoop dID rID ipPort hostNamePort ip hostWithPort f
        ((c :: rest).drop ipPort.length)
    else if pfxMatch ip (c :: rest) then
      match (c :: rest).drop ip.length with
      | ':' :: _ =>
        c :: transformLoop dID rID ipPort hostNamePort ip hostWithPort f rest
      | after =>
        hostWithPort ++
          transformLoop dID rID ipPort hostNamePort ip hostWithPort f after
    else if pfxMatch ['A', 'C', '4'] (c :: rest) then
      'A' :: 'C' :: '3' ::
        transformLoop dID rID ipPort hostNamePort ip hostWithPort f
          ((c :: rest).drop 3)
    else
      c :: transformLoop dID rID ipPort hostNamePort ip hostWithPort f rest

/-- `HDHRProxy.transformResponseBody` (proxy.go:166-235): host-part
precomputation followed by the single-pass replacement loop.  `deviceID`
and `hdhrIP` are the proxy's `deviceID` and `HDHRIP` fields, `host` the
request's Host header. -/
def transformResponseBody (deviceID hdhrIP : List Char)
    (body host : List Char) : List Char :=
  let hostParts := splitOn ':' host
  let hostName := hostParts.headD []
  let hostPort :=
    match hostParts with
    | _ :: p :: _ => p
    | _ => ['8', '0']
  let hostWithPort := if hostPort = ['8', '0'] then hostName else host
  let reversedDeviceID := reverseDeviceID deviceID
  let hdhrIPWithPort := hdhrIP ++ [':', '5', '0', '0', '4']
  let hostNameWithPort := hostName ++ [':', '5', '0', '0', '4']
  transformLoop deviceID reversedDeviceID hdhrIPWithPort hostNameWithPort
    hdhrIP hostWithPort body.length body

end ResponseRewrite

section CapabilityMap

/-- One record of the tuner's `lineup.json` array, as decoded by
`fetchAC4Channels` (transcoder.go:143-151). -/
structure LineupEntry where
  GuideNumber : List Char
  GuideName : List Char
  AudioCodec : List Char
  VideoCodec : List Char
deriving DecidableEq

/-- The classification applied per record in `fetchAC4Channels`
(transcoder.go:161): `strings.ToUpper(channel.AudioCodec) == "AC4"`. -/
def entryHasAC4 (e : LineupEntry) : Bool :=
  listToUpper e.AudioCodec == ['A', 'C', '4']

/-- The map-building loop of `fetchAC4Channels` (transcoder.go:159-175):
`t.ac4Channels[channel.GuideNumber] = hasAC4` for each record in order. -/
def buildAC4Map (lineup : List LineupEntry) : List (List Char × Bool) :=
  lineup.foldl (fun m e => aset e.GuideNumber (entryHasAC4 e) m) []

/-- `Impl.isAC4Channel` (transcoder.go:192-203): a guide number absent
from the map is reported as needing transcode. -/
def isAC4Channel (ac4Channels : List (List Char × Bool))
    (channel : List Char) : Bool :=
  match alookup channel ac4Channels with
  | none => true
  | some b => b

/-- Outcome of the `/auto/` handler in `Impl.MediaHandler`. -/
inductive Dispatch where
  | transcoded
  | direct
  | badRequest
  | notFound
deriving DecidableEq

/-- The `/auto/` request handler of `Impl.MediaHandler`
(transcoder.go:401-439): require the `/auto/v` path shape, extract the
channel with `strings.TrimPrefix`, reject an empty channel with 400, and
dispatch on `isAC4Channel`. -/
def autoHandler (ac4Channels : List (List Char × Bool))
    (path : List Char) : Dispatch :=
  if pfxMatch ['/', 'a', 'u', 't', 'o', '/', 'v'] path then
    let channel := path.drop 7
    if channel = [] then Dispatch.badRequest
    else if isAC4Channel ac4Channels channel then Dispatch.transcoded
    else Dispatch.direct
  else Dispatch.notFound

end CapabilityMap

section Diagnostics

/-- Log severities used by `internal/logger`. -/
inductive LogLevel where
  | debug
  | warn
  | error
deriving DecidableEq

/-- Observable side effects of the embedded transcoder operations. -/
inductive Effect where
  | killProcess (pid : Int)
  | logAt (lvl : LogLevel)
deriving DecidableEq

/-- Two's-complement wrap of Go's 32-bit `sync/atomic` addition. -/
def wrap32 (n : Int) : Int :=
  (n + 2147483648) % 4294967296 - 2147483648

/-- The per-session AC4 error counters of `startFFmpeg`
(transcoder.go:670-672): `ac4ErrorCount`, `consecutiveErrors`,
`lastErrorTime` (Unix nanoseconds). -/
structure AC4Counters where
  total : Int
  consecutive : Int
  lastErrorAt : Int
deriving DecidableEq

/-- `errorResetInterval = 30 * time.Second` (transcoder.go:673), in
nanoseconds. -/
def errorResetIntervalNs : Int := 30 * 1000000000

/-- The AC4 diagnostic pattern of transcoder.go:682-684: the line
contains `"[ac4 @"` and one of the two decoder complaints. -/
def isAC4ErrorLine (line : List Char) : Bool :=
  listContains line "[ac4 @".toList &&
    (listContains line "substream audio data overread".toList ||
      listContains line "Invalid data found when processing input".toList)

/-- The body of the stderr scanner loop in `startFFmpeg`
(transcoder.go:676-736) for one line read at time `now`: AC4 diagnostic
lines update the counters and are logged at a severity that escalates
with the consecutive count; other lines containing `"Error"` are logged
at error severity; nothing in this loop stops the stream or signals the
subprocess. -/
def processStderrLine (st : AC4Counters) (line : List Char) (now : Int) :
    AC4Counters × List Effect :=
  if isAC4ErrorLine line then
    let consec0 :=
      if now - st.lastErrorAt > errorResetIntervalNs then 0 else st.consecutive
    let total1 := wrap32 (st.total + 1)
    let consec1 := wrap32 (consec0 + 1)
    let lvl :=
      if consec1 ≤ 5 then LogLevel.debug
      else if consec1 ≤ 20 then LogLevel.warn
      else LogLevel.error
    (⟨total1, consec1, now⟩, [Effect.logAt lvl])
  else if listContains line "Error".toList &&
      !(listContains line "[ac4 @".toList) then
    (st, [Effect.logAt LogLevel.error])
  else
    (st, [])

/-- The session errors distinguished by the claims. -/
inductive SessionError where
  | subprocessFailure
  | streamInterrupted (msg : List Char)
  | ffmpegCopyFailure (msg : List Char)
deriving DecidableEq

/-- The `cmd.Wait()` handling at the end of `startFFmpeg`
(transcoder.go:817-834): a non-zero exit with at least one recorded AC4
error is treated as a normal live-stream end, a non-zero exit with zero
AC4 errors is surfaced as a subprocess failure. -/
def ffmpegWaitResult (exitedNonZero : Bool) (finalErrorCount : Int) :
    Option SessionError :=
  if exitedNonZero then
    if finalErrorCount > 0 then none
    else some SessionError.subprocessFailure
  else none

end Diagnostics

section WriteErrors

/-- The client-disconnect test applied to a stream-copy error in both
`DirectStreamChannel` (transcoder.go:342-343) and `startFFmpeg`
(transcoder.go:804-805). -/
def isClientDisconnectError (msg : List Char) : Bool :=
  listContains msg "connection reset by peer".toList ||
    listContains msg "broken pipe".toList

/-- What a stream operation does with a copy error: the error value it
returns to the router, and whether it invokes `StopActiveStream` in that
branch.  (Independently of this branch, `cleanupStream` is deferred by
both callers and always runs.) -/
structure CopyErrorOutcome where
  returnedError : Option SessionError
  stopsActiveStream : Bool
deriving DecidableEq

/-- The error handling after the copy loop of `DirectStreamChannel`
(transcoder.go:341-351). -/
def directStreamHandleError (msg : List Char) : CopyErrorOutcome :=
  if isClientDisconnectError msg then
    { returnedError := none, stopsActiveStream := true }
  else
    { returnedError := some (SessionError.streamInterrupted msg),
      stopsActiveStream := false }

/-- The error handling after the ffmpeg-to-client copy loop of
`startFFmpeg` (transcoder.go:803-813). -/
def ffmpegCopyHandleError (msg : List Char) : CopyErrorOutcome :=
  if isClientDisconnectError msg then
    { returnedError := none, stopsActiveStream := true }
  else
    { returnedError := some (SessionError.ffmpegCopyFailure msg),
      stopsActiveStream := false }

end WriteErrors

section Registry

/-- The registry fragment of `transcoder.Impl` (transcoder.go:44-52):
`activeStreams` maps a channel to its start time, `connectionActivity`
to its last activity stamp, and `ffmpegProcesses` to the PID of its
transcoder subprocess.  Times are `Int` nanoseconds. -/
structure RegistryState where
  activeStreams : List (String × Int)
  connectionActivity : List (String × Int)
  ffmpegProcesses : List (String × Int)
deriving DecidableEq

/-- The registration step of `setupStreamConnection`
(transcoder.go:216-226): record the start time in `activeStreams` and
stamp `connectionActivity` via `updateActivityTimestamp`.  Nothing else
is touched and no signal is sent. -/
def registerStream (st : RegistryState) (channel : String) (now : Int) :
    RegistryState × List Effect :=
  ({ st with
      activeStreams := aset channel now st.activeStreams,
      connectionActivity := aset channel now st.connectionActivity }, [])

/-- The PID bookkeeping of `startFFmpeg` (transcoder.go:652-654):
`t.ffmpegProcesses[channel] = ffmpegPid`, overwriting any previous
binding. -/
def registerFFmpegProcess (st : RegistryState) (channel : String)
    (pid : Int) : RegistryState × List Effect :=
  ({ st with ffmpegProcesses := aset channel pid st.ffmpegProcesses }, [])

/-- `Impl.StopActiveStream` (transcoder.go:838-867): a no-op when the
channel is not registered, otherwise remove it from the registry and
kill its subprocess if one is tracked. -/
def stopActiveStream (st : RegistryState) (channel : String) :
    RegistryState × List Effect :=
  match alookup channel st.activeStreams with
  | none => (st, [])
  | some _ =>
    let st1 := { st with activeStreams := aerase channel st.activeStreams }
    match alookup channel st1.ffmpegProcesses with
    | some pid =>
      ({ st1 with ffmpegProcesses := aerase channel st1.ffmpegProcesses },
        [Effect.killProcess pid])
    | none => (st1, [])

/-- The per-channel cleanup loop of `cleanupInactiveStreams`
(transcoder.go:590-599): `StopActiveStream` followed by removal from the
activity map, for each detected channel in order. -/
def cleanupList (st : RegistryState) :
    List String → RegistryState × List Effect
  | [] => (st, [])
  | c :: rest =>
    let r1 := stopActiveStream st c
    let st2 :=
      { r1.1 with connectionActivity := aerase c r1.1.connectionActivity }
    let r2 := cleanupList st2 rest
    (r2.1, r1.2 ++ r2.2)

/-- `Impl.cleanupInactiveStreams` (transcoder.go:574-600) at sweep time
`now`: collect the channels whose last activity is older than
`maxInactivity`, then clean each one up. -/
def cleanupInactiveStreams (maxInactivity : Int) (now : Int)
    (st : RegistryState) : RegistryState × List Effect :=
  cleanupList st
    ((st.connectionActivity.filter
      (fun p => decide (now - p.2 > maxInactivity))).map Prod.fst)

/-- `ActivityCheckInterval` default, `config.DefaultConfig`
(config.go:54): 30 s in nanoseconds. -/
def defaultActivityCheckIntervalNs : Int := 30 * 1000000000

/-- `MaxInactivityDuration` default, `config.DefaultConfig`
(config.go:55): 2 min in nanoseconds. -/
def defaultMaxInactivityDurationNs : Int := 120 * 1000000000

end Registry

section APIProxyStreaming

/-- The upstream response head as seen by `HDHRProxy.streamResponse`;
headers are (name, value) pairs, `contentLength` is the parsed
`Content-Length` value with `-1` for absent or unparseable (matching the
Go code). -/
structure UpstreamResponse where
  status : Nat
  headers : List (List Char × List Char)
  contentType : List Char
  contentLength : Int
deriving DecidableEq

/-- The text-like test of `streamResponse` (proxy.go:316-320). -/
def needsTransformation (contentType : List Char) : Bool :=
  listContains contentType "application/json".toList ||
    listContains contentType "text/html".toList ||
    listContains contentType "text/plain".toList ||
    listContains contentType "text/xml".toList

/-- The header copy of `streamResponse` (proxy.go:303-310): every
upstream header except `Content-Length` (compared case-insensitively) is
added to the client response. -/
def copyResponseHeaders (headers : List (List Char × List Char)) :
    List (List Char × List Char) :=
  headers.filter (fun p => !(listToLower p.1 == "content-length".toList))

/-- How `streamResponse` forwards the body (proxy.go:322-369). -/
inductive BodyMode where
  | directCopy
  | transformInMemory
  | transformByLine
deriving DecidableEq

/-- The head of the proxied response produced by `streamResponse`
(proxy.go:302-313): filtered headers and the upstream status code,
written before any content-type branching. -/
def streamResponseHead (resp : UpstreamResponse) :
    List (List Char × List Char) × Nat :=
  (copyResponseHeaders resp.headers, resp.status)

/-- The body-handling decision of `streamResponse` (proxy.go:315-369):
non-text-like content is copied through untransformed; text-like content
is transformed in memory when small or of unknown size, line by line
otherwise. -/
def streamResponseBodyMode (resp : UpstreamResponse) : BodyMode :=
  if !(needsTransformation resp.contentType) then BodyMode.directCopy
  else if resp.contentLength = -1 ∨ resp.contentLength < 1048576 then
    BodyMode.transformInMemory
  else BodyMode.transformByLine

end APIProxyStreaming

section MapLemmas

variable {α : Type} {β : Type} [DecidableEq α]

theorem alookup_aerase_self (k : α) (l : List (α × β)) :
    alookup k (aerase k l) = none := by
  induction l with
  | nil => rfl
  | cons p t ih =>
    obtain ⟨a, b⟩ := p
    by_cases h : a = k
    · simp [aerase, h, ih]
    · simp [aerase, alookup, h, ih]

theorem alookup_aerase_ne {k j : α} (h : j ≠ k) (l : List (α × β)) :
    alookup j (aerase k l) = alookup j l := by
  induction l with
  | nil => rfl
  | cons p t ih =>
    obtain ⟨a, b⟩ := p
    by_cases hak : a = k
    · have h1 : aerase k ((a, b) :: t) = aerase k t := by simp [aerase, hak]
      have h2 : a ≠ j := by rw [hak]; exact fun hh => h hh.symm
      rw [h1, ih, alookup, if_neg h2]
    · have h1 : aerase k ((a, b) :: t) = (a, b) :: aerase k t := by
        simp [aerase, hak]
      by_cases haj : a = j
      · rw [h1, alookup, alookup, if_pos haj, if_pos haj]
      · rw [h1, alookup, alookup, if_neg haj, if_neg haj, ih]

theorem alookup_aerase_none {k j : α} {l : List (α × β)}
    (h : alookup j l = none) : alookup j (aerase k l) = none := by
  by_cases hjk : j = k
  · subst hjk; exact alookup_aerase_self j l
  · rw [alookup_aerase_ne hjk, h]

theorem alookup_aset_self (k : α) (v : β) (l : List (α × β)) :
    alookup k (aset k v l) = some v := by
  simp [aset, alookup]

theorem alookup_aset_ne {k j : α} (h : j ≠ k) (v : β) (l : List (α × β)) :
    alookup j (aset k v l) = alookup j l := by
  have hkj : ¬ k = j := fun hh => h hh.symm
  rw [aset, alookup, if_neg hkj, alookup_aerase_ne h]

theorem alookup_mem {k : α} {v : β} {l : List (α × β)} :
    alookup k l = some v → (k, v) ∈ l := by
  induction l with
  | nil => intro h; cases h
  | cons p t ih =>
    obtain ⟨a, b⟩ := p
    intro hv
    by_cases h : a = k
    · subst h
      rw [alookup, if_pos rfl] at hv
      have hb : b = v := Option.some.inj hv
      subst hb
      exact List.mem_cons_self _ _
    · rw [alookup, if_neg h] at hv
      exact List.mem_cons_of_mem _ (ih hv)

end MapLemmas

section StringLemmas

theorem pfxMatch_append (p s : List Char) : pfxMatch p (p ++ s) = true := by
  induction p with
  | nil => rfl
  | cons a t ih => simp [pfxMatch, ih]

end StringLemmas

section RegistryLemmas

theorem stopActiveStream_activity (st : RegistryState) (d : String) :
    (stopActiveStream st d).1.connectionActivity = st.connectionActivity := by
  cases hA : alookup d st.activeStreams with
  | none => simp [stopActiveStream, hA]
  | some t0 =>
    cases hF : alookup d st.ffmpegProcesses with
    | none => simp [stopActiveStream, hA, hF]
    | some pid => simp [stopActiveStream, hA, hF]

theorem stopActiveStream_active_ne {c d : String} (h : c ≠ d)
    (st : RegistryState) :
    alookup c (stopActiveStream st d).1.activeStreams =
      alookup c st.activeStreams := by
  cases hA : alookup d st.activeStreams with
  | none => simp [stopActiveStream, hA]
  | some t0 =>
    cases hF : alookup d st.ffmpegProcesses with
    | none => simp [stopActiveStream, hA, hF, alookup_aerase_ne h]
    | some pid => simp [stopActiveStream, hA, hF, alookup_aerase_ne h]

theorem stopActiveStream_ffmpeg_ne {c d : String} (h : c ≠ d)
    (st : RegistryState) :
    alookup c (stopActiveStream st d).1.ffmpegProcesses =
      alookup c st.ffmpegProcesses := by
  cases hA : alookup d st.activeStreams with
  | none => simp [stopActiveStream, hA]
  | some t0 =>
    cases hF : alookup d st.ffmpegProcesses with
    | none => simp [stopActiveStream, hA, hF]
    | some pid => simp [stopActiveStream, hA, hF, alookup_aerase_ne h]

theorem stopActiveStream_active_none {c : String} {st : RegistryState}
    (d : String) (h : alookup c st.activeStreams = none) :
    alookup c (stopActiveStream st d).1.activeStreams = none := by
  cases hA : alookup d st.activeStreams with
  | none => simpa [stopActiveStream, hA] using h
  | some t0 =>
    cases hF : alookup d st.ffmpegProcesses with
    | none => simp [stopActiveStream, hA, hF, alookup_aerase_none h]
    | some pid => simp [stopActiveStream, hA, hF, alookup_aerase_none h]

theorem stopActiveStream_ffmpeg_none {c : String} {st : RegistryState}
    (d : String) (h : alookup c st.ffmpegProcesses = none) :
    alookup c (stopActiveStream st d).1.ffmpegProcesses = none := by
  cases hA : alookup d st.activeStreams with
  | none => simpa [stopActiveStream, hA] using h
  | some t0 =>
    cases hF : alookup d st.ffmpegProcesses with
    | none => simpa [stopActiveStream, hA, hF] using h
    | some pid => simp [stopActiveStream, hA, hF, alookup_aerase_none h]

theorem cleanupList_none {c : String} :
    ∀ (l : List String) (st : RegistryState),
    alookup c st.activeStreams = none →
    alookup c st.connectionActivity = none →
    alookup c st.ffmpegProcesses = none →
    alookup c (cleanupList st l).1.activeStreams = none ∧
      alookup c (cleanupList st l).1.connectionActivity = none ∧
      alookup c (cleanupList st l).1.ffmpegProcesses = none
  | [], st, hA, hC, hF => ⟨hA, hC, hF⟩
  | d :: rest, st, hA, hC, hF => by
    have hA2 := stopActiveStream_active_none d hA
    have hF2 := stopActiveStream_ffmpeg_none d hF
    have hC2 : alookup c
        (aerase d (stopActiveStream st d).1.connectionActivity) = none := by
      rw [stopActiveStream_activity]
      exact alookup_aerase_none hC
    have ih := cleanupList_none rest
      { (stopActiveStream st d).1 with
        connectionActivity :=
          aerase d (stopActiveStream st d).1.connectionActivity }
      hA2 hC2 hF2
    simpa [cleanupList] using ih

theorem cleanupList_evicts {c : String} {t0 pid : Int} :
    ∀ (l : List String) (st : RegistryState), c ∈ l →
    alookup c st.activeStreams = some t0 →
    alookup c st.ffmpegProcesses = some pid →
    alookup c (cleanupList st l).1.activeStreams = none ∧
      alookup c (cleanupList st l).1.connectionActivity = none ∧
      alookup c (cleanupList st l).1.ffmpegProcesses = none ∧
      Effect.killProcess pid ∈ (cleanupList st l).2
  | [], _, hmem, _, _ => absurd hmem (List.not_mem_nil c)
  | d :: rest, st, hmem, hA, hF => by
    by_cases hdc : d = c
    · subst hdc
      have hstop : stopActiveStream st d =
          ({ st with
              activeStreams := aerase d st.activeStreams,
              ffmpegProcesses := aerase d st.ffmpegProcesses },
            [Effect.killProcess pid]) := by
        simp [stopActiveStream, hA, hF]
      have hnone := cleanupList_none (c := d) rest
        { st with
          activeStreams := aerase d st.activeStreams,
          connectionActivity := aerase d st.connectionActivity,
          ffmpegProcesses := aerase d st.ffmpegProcesses }
        (alookup_aerase_self d st.activeStreams)
        (alookup_aerase_self d st.connectionActivity)
        (alookup_aerase_self d st.ffmpegProcesses)
      refine ⟨?_, ?_, ?_, ?_⟩ <;>
        simp [cleanupList, hstop] <;>
        simp [hnone.1, hnone.2.1, hnone.2.2]
    · have hcd : c ≠ d := fun hh => hdc hh.symm
      have hmem2 : c ∈ rest := by
        cases List.mem_cons.mp hmem with
        | inl h => exact absurd h.symm hdc
        | inr h => exact h
      have ih := cleanupList_evicts rest
        { (stopActiveStream st d).1 with
          connectionActivity :=
            aerase d (stopActiveStream st d).1.connectionActivity }
        hmem2
        (by
          show alookup c (stopActiveStream st d).1.activeStreams = some t0
          rw [stopActiveStream_active_ne hcd]; exact hA)
        (by
          show alookup c (stopActiveStream st d).1.ffmpegProcesses = some pid
          rw [stopActiveStream_ffmpeg_ne hcd]; exact hF)
      refine ⟨?_, ?_, ?_, ?_⟩ <;> simp [cleanupList]
      · exact ih.1
      · exact ih.2.1
      · exact ih.2.2.1
      · exact Or.inr ih.2.2.2

end RegistryLemmas

section CapabilityLemmas

theorem foldl_aset_lookup_ne :
    ∀ (l : List LineupEntry) (m : List (List Char × Bool)) (g : List Char),
    (∀ e ∈ l, e.GuideNumber ≠ g) →
    alookup g
      (l.foldl (fun m e => aset e.GuideNumber (entryHasAC4 e) m) m) =
      alookup g m
  | [], _, _, _ => rfl
  | f :: rest, m, g, h => by
    have hg : g ≠ f.GuideNumber :=
      fun hh => (h f (List.mem_cons_self f rest)) hh.symm
    have ih := foldl_aset_lookup_ne rest
      (aset f.GuideNumber (entryHasAC4 f) m) g
      (fun e he => h e (List.mem_cons_of_mem f he))
    simpa [List.foldl_cons, alookup_aset_ne hg] using ih

theorem buildAC4Map_lookup_aux :
    ∀ (l : List LineupEntry) (m : List (List Char × Bool)) (e : LineupEntry),
    (l.map LineupEntry.GuideNumber).Nodup → e ∈ l →
    alookup e.GuideNumber
      (l.foldl (fun m e => aset e.GuideNumber (entryHasAC4 e) m) m) =
      some (entryHasAC4 e)
  | [], _, e, _, he => absurd he (List.not_mem_nil e)
  | f :: rest, m, e, hnd, he => by
    have hnd2 : (∀ x ∈ rest, ¬ x.GuideNumber = f.GuideNumber) ∧
        (rest.map LineupEntry.GuideNumber).Nodup := by
      simpa using hnd
    cases List.mem_cons.mp he with
    | inl hef =>
      subst hef
      have hne : ∀ x ∈ rest, x.GuideNumber ≠ e.GuideNumber := hnd2.1
      have := foldl_aset_lookup_ne rest
        (aset e.GuideNumber (entryHasAC4 e) m) e.GuideNumber hne
      simpa [List.foldl_cons, alookup_aset_self] using this
    | inr hrest =>
      have ih := buildAC4Map_lookup_aux rest
        (aset f.GuideNumber (entryHasAC4 f) m) e hnd2.2 hrest
      simpa [List.foldl_cons] using ih

end CapabilityLemmas

section IntLemmas

theorem wrap32_eq_of_bounds {n : Int} (h0 : -2147483648 ≤ n)
    (h1 : n < 2147483648) : wrap32 n = n := by
  unfold wrap32
  omega

end IntLemmas

section Claims

/-- Claim C1 (code bug): the claim says a second `Open` on a channel with
a live session cancels the prior session — signalling its subprocess —
before registering the new one.  The code does not: at the failing input
(a registry with a live session and subprocess pid 123 on channel
`"5.1"`, then a second request registering at time 5 s and starting a new
subprocess pid 999), the registration step of `setupStreamConnection`
emits no effect at all, the prior pid 123 is never signalled, and
`startFFmpeg` simply overwrites the pid binding, orphaning process 123. -/
theorem reopen_registration_sends_no_cancel :
    (registerStream ⟨[("5.1", 0)], [("5.1", 0)], [("5.1", 123)]⟩
      "5.1" 5000000000).2 = [] ∧
    (registerFFmpegProcess
      (registerStream ⟨[("5.1", 0)], [("5.1", 0)], [("5.1", 123)]⟩
        "5.1" 5000000000).1 "5.1" 999).2 = [] ∧
    alookup "5.1"
      (registerStream ⟨[("5.1", 0)], [("5.1", 0)], [("5.1", 123)]⟩
        "5.1" 5000000000).1.activeStreams = some 5000000000 ∧
    alookup "5.1"
      (registerStream ⟨[("5.1", 0)], [("5.1", 0)], [("5.1", 123)]⟩
        "5.1" 5000000000).1.ffmpegProcesses = some 123 ∧
    alookup "5.1"
      (registerFFmpegProcess
        (registerStream ⟨[("5.1", 0)], [("5.1", 0)], [("5.1", 123)]⟩
          "5.1" 5000000000).1 "5.1" 999).1.ffmpegProcesses = some 999 ∧
    Effect.killProcess 123 ∉
      ((registerStream ⟨[("5.1", 0)], [("5.1", 0)], [("5.1", 123)]⟩
          "5.1" 5000000000).2 ++
        (registerFFmpegProcess
          (registerStream ⟨[("5.1", 0)], [("5.1", 0)], [("5.1", 123)]⟩
            "5.1" 5000000000).1 "5.1" 999).2) := by
  refine ⟨rfl, rfl, rfl, rfl, rfl, ?_⟩
  simp [registerStream, registerFFmpegProcess]

/-- Claim C2: the single-pass rewrite of `transformResponseBody` on the
spec's literal example — device id `"ABCDEF12"`, tuner `192.168.1.100`,
Host `proxy.local` — plus two further inputs exercising the standalone
tuner-address substitution: with a non-80 client port the full
`host:port` is substituted and a tuner address followed by a colon other
than `:5004` is left alone, and with client port 80 the port is
omitted. -/
theorem transform_rewrite_examples :
    transformResponseBody "ABCDEF12".toList "192.168.1.100".toList
        "dev ABCDEF12 at 192.168.1.100:5004 codec AC4".toList
        "proxy.local".toList
      = "dev 21FEDCBA at proxy.local:5004 codec AC3".toList ∧
    transformResponseBody "ABCDEF12".toList "192.168.1.100".toList
        "ip 192.168.1.100 and 192.168.1.100:8080 x".toList
        "proxy.local:8080".toList
      = "ip proxy.local:8080 and 192.168.1.100:8080 x".toList ∧
    transformResponseBody "ABCDEF12".toList "192.168.1.100".toList
        "at 192.168.1.100!".toList "proxy.local:80".toList
      = "at proxy.local!".toList :=
  ⟨rfl, rfl, rfl⟩

/-- Claim C3: the `/auto/v<channel>` dispatcher sends a channel whose
guide number is absent from the capability map (in particular every
channel when the map is empty) to the transcoded path, and a channel
present in the map to the path its recorded flag selects. -/
theorem unknown_channel_dispatches_transcoded
    (m : List (List Char × Bool)) (c : List Char) (hne : c ≠ []) :
    (alookup c m = none →
      autoHandler m ("/auto/v".toList ++ c) = Dispatch.transcoded) ∧
    (∀ b, alookup c m = some b →
      autoHandler m ("/auto/v".toList ++ c) =
        if b then Dispatch.transcoded else Dispatch.direct) := by
  have hpath : ("/auto/v".toList : List Char) =
      ['/', 'a', 'u', 't', 'o', '/', 'v'] := rfl
  have hdrop : (("/auto/v".toList ++ c).drop 7) = c := by
    rw [hpath]
    rfl
  constructor
  · intro hnone
    simp [autoHandler, pfxMatch, hdrop, hne, isAC4Channel, hnone]
  · intro b hsome
    simp [autoHandler, pfxMatch, hdrop, hne, isAC4Channel, hsome]

/-- Witness for C3 at concrete inputs: channel `"5.1"` with an empty map
dispatches to the transcoded path; channel `"7.1"` recorded as not
needing transcode dispatches to the direct path. -/
theorem unknown_channel_dispatches_transcoded_witness :
    ("5.1".toList : List Char) ≠ [] ∧
    autoHandler [] ("/auto/v".toList ++ "5.1".toList) =
      Dispatch.transcoded ∧
    autoHandler [("7.1".toList, false)]
      ("/auto/v".toList ++ "7.1".toList) = Dispatch.direct := by
  refine ⟨by decide, ?_, ?_⟩
  · exact (unknown_channel_dispatches_transcoded [] "5.1".toList
      (by decide)).1 rfl
  · have h := (unknown_channel_dispatches_transcoded
      [("7.1".toList, false)] "7.1".toList (by decide)).2 false rfl
    simpa using h

/-- Claim C4: for a lineup whose guide numbers are pairwise distinct,
the capability map built by `fetchAC4Channels` binds each record's guide
number to `true` exactly when the record's `AudioCodec`, upper-cased,
equals `"AC4"`. -/
theorem buildAC4Map_classifies_records
    (lineup : List LineupEntry) (e : LineupEntry)
    (hnd : (lineup.map LineupEntry.GuideNumber).Nodup) (he : e ∈ lineup) :
    alookup e.GuideNumber (buildAC4Map lineup) =
      some (listToUpper e.AudioCodec == ['A', 'C', '4']) :=
  buildAC4Map_lookup_aux lineup [] e hnd he

/-- Witness for C4 on a concrete two-record lineup: the `AC4` record maps
to `true`, the `AC3` record to `false`. -/
theorem buildAC4Map_classifies_records_witness :
    ((([⟨"5.1".toList, "KAAA".toList, "AC4".toList, "HEVC".toList⟩,
        ⟨"7.1".toList, "KBBB".toList, "AC3".toList, "MPEG2".toList⟩] :
      List LineupEntry).map LineupEntry.GuideNumber).Nodup) ∧
    alookup "5.1".toList
      (buildAC4Map
        [⟨"5.1".toList, "KAAA".toList, "AC4".toList, "HEVC".toList⟩,
         ⟨"7.1".toList, "KBBB".toList, "AC3".toList, "MPEG2".toList⟩]) =
      some true ∧
    alookup "7.1".toList
      (buildAC4Map
        [⟨"5.1".toList, "KAAA".toList, "AC4".toList, "HEVC".toList⟩,
         ⟨"7.1".toList, "KBBB".toList, "AC3".toList, "MPEG2".toList⟩]) =
      some false := by
  refine ⟨by decide, ?_, ?_⟩
  · have h := buildAC4Map_classifies_records
      [⟨"5.1".toList, "KAAA".toList, "AC4".toList, "HEVC".toList⟩,
       ⟨"7.1".toList, "KBBB".toList, "AC3".toList, "MPEG2".toList⟩]
      ⟨"5.1".toList, "KAAA".toList, "AC4".toList, "HEVC".toList⟩
      (by decide) (by decide)
    simpa using h
  · have h := buildAC4Map_classifies_records
      [⟨"5.1".toList, "KAAA".toList, "AC4".toList, "HEVC".toList⟩,
       ⟨"7.1".toList, "KBBB".toList, "AC3".toList, "MPEG2".toList⟩]
      ⟨"7.1".toList, "KBBB".toList, "AC3".toList, "MPEG2".toList⟩
      (by decide) (by decide)
    simpa using h

/-- Claim C5: a stderr line matching the AC4 diagnostic pattern
increments the total error counter by exactly 1; the consecutive counter
either increments by 1 or — exactly when more than 30 s elapsed since the
last recorded error — resets and ends at 1; the last-error time is set to
`now`; and processing the line emits no subprocess-kill effect (it never
terminates the session).  The bounds hypotheses say the 32-bit counters
are not at their wrap point, which holds throughout a session since both
start at 0. -/
theorem ac4_error_line_updates_counters (st : AC4Counters)
    (line : List Char) (now : Int)
    (hline : isAC4ErrorLine line = true)
    (htot0 : 0 ≤ st.total) (htot1 : st.total + 1 < 2147483648)
    (hcons0 : 0 ≤ st.consecutive)
    (hcons1 : st.consecutive + 1 < 2147483648) :
    (processStderrLine st line now).1.total = st.total + 1 ∧
    ((processStderrLine st line now).1.consecutive = st.consecutive + 1 ∨
      (processStderrLine st line now).1.consecutive = 1) ∧
    (now - st.lastErrorAt > errorResetIntervalNs →
      (processStderrLine st line now).1.consecutive = 1) ∧
    (¬ now - st.lastErrorAt > errorResetIntervalNs →
      (processStderrLine st line now).1.consecutive = st.consecutive + 1) ∧
    (processStderrLine st line now).1.lastErrorAt = now ∧
    ∀ pid, Effect.killProcess pid ∉ (processStderrLine st line now).2 := by
  have htot : wrap32 (st.total + 1) = st.total + 1 :=
    wrap32_eq_of_bounds (by omega) htot1
  have hcons : wrap32 (st.consecutive + 1) = st.consecutive + 1 :=
    wrap32_eq_of_bounds (by omega) hcons1
  have hone : wrap32 1 = 1 := by decide
  by_cases hr : now - st.lastErrorAt > errorResetIntervalNs
  · refine ⟨?_, ?_, ?_, ?_, ?_, ?_⟩ <;>
      simp [processStderrLine, hline, hr, htot, hone]
  · refine ⟨?_, ?_, ?_, ?_, ?_, ?_⟩ <;>
      simp [processStderrLine, hline, hr, htot, hcons]

/-- Witness for C5: a fresh session (all counters zero) observing a
concrete AC4 overread line at t = 40 s ends with total 1, consecutive 1,
and no kill effect. -/
theorem ac4_error_line_updates_counters_witness :
    isAC4ErrorLine
      "[ac4 @ 0x55aa] substream audio data overread: 4".toList = true ∧
    ((processStderrLine ⟨0, 0, 0⟩
        "[ac4 @ 0x55aa] substream audio data overread: 4".toList
        40000000000).1.total = 0 + 1 ∧
      ((processStderrLine ⟨0, 0, 0⟩
          "[ac4 @ 0x55aa] substream audio data overread: 4".toList
          40000000000).1.consecutive = 0 + 1 ∨
        (processStderrLine ⟨0, 0, 0⟩
          "[ac4 @ 0x55aa] substream audio data overread: 4".toList
          40000000000).1.consecutive = 1) ∧
      ((40000000000 : Int) - (0 : Int) > errorResetIntervalNs →
        (processStderrLine ⟨0, 0, 0⟩
          "[ac4 @ 0x55aa] substream audio data overread: 4".toList
          40000000000).1.consecutive = 1) ∧
      (¬ (40000000000 : Int) - (0 : Int) > errorResetIntervalNs →
        (processStderrLine ⟨0, 0, 0⟩
          "[ac4 @ 0x55aa] substream audio data overread: 4".toList
          40000000000).1.consecutive = 0 + 1) ∧
      (processStderrLine ⟨0, 0, 0⟩
        "[ac4 @ 0x55aa] substream audio data overread: 4".toList
        40000000000).1.lastErrorAt = 40000000000 ∧
      ∀ pid, Effect.killProcess pid ∉
        (processStderrLine ⟨0, 0, 0⟩
          "[ac4 @ 0x55aa] substream audio data overread: 4".toList
          40000000000).2) :=
  ⟨by decide,
    ac4_error_line_updates_counters ⟨0, 0, 0⟩
      "[ac4 @ 0x55aa] substream audio data overread: 4".toList
      40000000000 (by decide) (by decide) (by decide) (by decide)
      (by decide)⟩

/-- Claim C6: when the transcoder subprocess exits non-zero, the session
returns success if at least one AC4 error was recorded and a
subprocess-failure error if none was; a zero exit is never an error. -/
theorem nonzero_exit_with_ac4_errors_not_surfaced (cnt : Int) :
    (0 < cnt → ffmpegWaitResult true cnt = none) ∧
    (cnt = 0 →
      ffmpegWaitResult true cnt = some SessionError.subprocessFailure) ∧
    ffmpegWaitResult false cnt = none := by
  refine ⟨?_, ?_, rfl⟩
  · intro h
    simp [ffmpegWaitResult, h]
  · intro h
    simp [ffmpegWaitResult, h]

/-- Witness for C6: exit with 3 recorded AC4 errors is success, exit with
0 recorded AC4 errors is a subprocess failure. -/
theorem nonzero_exit_with_ac4_errors_not_surfaced_witness :
    ((0 : Int) < 3 ∧ ffmpegWaitResult true 3 = none) ∧
    ffmpegWaitResult true 0 = some SessionError.subprocessFailure :=
  ⟨⟨by decide,
    (nonzero_exit_with_ac4_errors_not_surfaced 3).1 (by decide)⟩,
    (nonzero_exit_with_ac4_errors_not_surfaced 0).2.1 rfl⟩

/-- Claim C7: in both the direct path and the transcoded path, a copy
error whose message contains `"connection reset by peer"` or
`"broken pipe"` makes the operation return success while still invoking
`StopActiveStream`; any other copy error is returned as an error. -/
theorem client_disconnect_write_error_is_success (msg : List Char) :
    (listContains msg "connection reset by peer".toList = true ∨
        listContains msg "broken pipe".toList = true →
      (directStreamHandleError msg).returnedError = none ∧
        (directStreamHandleError msg).stopsActiveStream = true ∧
        (ffmpegCopyHandleError msg).returnedError = none ∧
        (ffmpegCopyHandleError msg).stopsActiveStream = true) ∧
    (listContains msg "connection reset by peer".toList = false →
      listContains msg "broken pipe".toList = false →
      (directStreamHandleError msg).returnedError =
          some (SessionError.streamInterrupted msg) ∧
        (ffmpegCopyHandleError msg).returnedError =
          some (SessionError.ffmpegCopyFailure msg)) := by
  constructor
  · intro h
    have hd : isClientDisconnectError msg = true := by
      unfold isClientDisconnectError
      cases h with
      | inl h1 => rw [h1]; simp
      | inr h2 => rw [h2]; simp
    simp [directStreamHandleError, ffmpegCopyHandleError, hd]
  · intro h1 h2
    have hd : isClientDisconnectError msg = false := by
      unfold isClientDisconnectError
      rw [h1, h2]
      rfl
    simp [directStreamHandleError, ffmpegCopyHandleError, hd]

/-- Witness for C7: a broken-pipe write error returns success on both
paths; an unrelated error is surfaced on both paths. -/
theorem client_disconnect_write_error_is_success_witness :
    (listContains "write tcp 10.0.0.2:5004: broken pipe".toList
        "broken pipe".toList = true ∧
      (directStreamHandleError
        "write tcp 10.0.0.2:5004: broken pipe".toList).returnedError =
        none ∧
      (ffmpegCopyHandleError
        "write tcp 10.0.0.2:5004: broken pipe".toList).stopsActiveStream =
        true) ∧
    (directStreamHandleError "unexpected EOF".toList).returnedError =
      some (SessionError.streamInterrupted "unexpected EOF".toList) := by
  refine ⟨⟨by decide, ?_, ?_⟩, ?_⟩
  · exact ((client_disconnect_write_error_is_success
      "write tcp 10.0.0.2:5004: broken pipe".toList).1
      (Or.inr (by decide))).1
  · exact ((client_disconnect_write_error_is_success
      "write tcp 10.0.0.2:5004: broken pipe".toList).1
      (Or.inr (by decide))).2.2.2
  · exact ((client_disconnect_write_error_is_success
      "unexpected EOF".toList).2 (by decide) (by decide)).1

set_option maxHeartbeats 2000000 in
/-- Claim C8: at a sweep of `cleanupInactiveStreams` at time `now`,
every registered session whose last activity is older than the
inactivity threshold is removed from the registry (active streams,
activity map and subprocess table) and its subprocess is signalled to
terminate; it is still gone at the following sweep one check interval
later, so an idle session is reclaimed between two consecutive
sweeps. -/
theorem inactivity_sweep_evicts_idle_session
    (maxI checkI now last t0 pid : Int) (c : String) (st : RegistryState)
    (hact : alookup c st.connectionActivity = some last)
    (hstream : alookup c st.activeStreams = some t0)
    (hpid : alookup c st.ffmpegProcesses = some pid)
    (hidle : now - last > maxI) :
    alookup c (cleanupInactiveStreams maxI now st).1.activeStreams =
      none ∧
    alookup c (cleanupInactiveStreams maxI now st).1.connectionActivity =
      none ∧
    alookup c (cleanupInactiveStreams maxI now st).1.ffmpegProcesses =
      none ∧
    Effect.killProcess pid ∈ (cleanupInactiveStreams maxI now st).2 ∧
    alookup c (cleanupInactiveStreams maxI (now + checkI)
      (cleanupInactiveStreams maxI now st).1).1.activeStreams = none ∧
    alookup c (cleanupInactiveStreams maxI (now + checkI)
      (cleanupInactiveStreams maxI now st).1).1.ffmpegProcesses = none := by
  have hmem : (c, last) ∈ st.connectionActivity := alookup_mem hact
  have hmemf : (c, last) ∈ st.connectionActivity.filter
      (fun p => decide (now - p.2 > maxI)) :=
    List.mem_filter.mpr ⟨hmem, by simpa using hidle⟩
  have hmemc : c ∈ (st.connectionActivity.filter
      (fun p => decide (now - p.2 > maxI))).map Prod.fst :=
    List.mem_map.mpr ⟨(c, last), hmemf, rfl⟩
  have hev := cleanupList_evicts
    ((st.connectionActivity.filter
      (fun p => decide (now - p.2 > maxI))).map Prod.fst)
    st hmemc hstream hpid
  have hnone := cleanupList_none (c := c)
    (((cleanupList st
        ((st.connectionActivity.filter
          (fun p => decide (now - p.2 > maxI))).map Prod.fst)).1
      |>.connectionActivity.filter
        (fun p => decide (now + checkI - p.2 > maxI))).map Prod.fst)
    (cleanupList st
      ((st.connectionActivity.filter
        (fun p => decide (now - p.2 > maxI))).map Prod.fst)).1
    hev.1 hev.2.1 hev.2.2.1
  exact ⟨hev.1, hev.2.1, hev.2.2.1, hev.2.2.2, hnone.1, hnone.2.2⟩

/-- Witness for C8 with the default configuration values: a session on
channel `"5.1"` (subprocess pid 321), last active at t = 0, is evicted by
the sweep at t = 130 s (> 2 min idle) and its subprocess is killed. -/
theorem inactivity_sweep_evicts_idle_session_witness :
    ((130000000000 : Int) - 0 > defaultMaxInactivityDurationNs) ∧
    (alookup "5.1" (cleanupInactiveStreams defaultMaxInactivityDurationNs
      130000000000
      ⟨[("5.1", 0)], [("5.1", 0)], [("5.1", 321)]⟩).1.activeStreams =
        none ∧
    alookup "5.1" (cleanupInactiveStreams defaultMaxInactivityDurationNs
      130000000000
      ⟨[("5.1", 0)], [("5.1", 0)], [("5.1", 321)]⟩).1.connectionActivity =
        none ∧
    alookup "5.1" (cleanupInactiveStreams defaultMaxInactivityDurationNs
      130000000000
      ⟨[("5.1", 0)], [("5.1", 0)], [("5.1", 321)]⟩).1.ffmpegProcesses =
        none ∧
    Effect.killProcess 321 ∈
      (cleanupInactiveStreams defaultMaxInactivityDurationNs 130000000000
        ⟨[("5.1", 0)], [("5.1", 0)], [("5.1", 321)]⟩).2 ∧
    alookup "5.1" (cleanupInactiveStreams defaultMaxInactivityDurationNs
      (130000000000 + defaultActivityCheckIntervalNs)
      (cleanupInactiveStreams defaultMaxInactivityDurationNs 130000000000
        ⟨[("5.1", 0)], [("5.1", 0)],
          [("5.1", 321)]⟩).1).1.activeStreams = none ∧
    alookup "5.1" (cleanupInactiveStreams defaultMaxInactivityDurationNs
      (130000000000 + defaultActivityCheckIntervalNs)
      (cleanupInactiveStreams defaultMaxInactivityDurationNs 130000000000
        ⟨[("5.1", 0)], [("5.1", 0)],
          [("5.1", 321)]⟩).1).1.ffmpegProcesses = none) :=
  ⟨by decide,
    inactivity_sweep_evicts_idle_session defaultMaxInactivityDurationNs
      defaultActivityCheckIntervalNs 130000000000 0 0 321 "5.1"
      ⟨[("5.1", 0)], [("5.1", 0)], [("5.1", 321)]⟩
      rfl rfl rfl (by decide)⟩

/-- Claim C10: the API-proxy response streamer forwards the upstream
status code and every upstream header except `Content-Length`
(case-insensitively), adds no header of its own, and this holds
independently of the content type: non-text-like content is streamed
through untransformed with the same filtered head. -/
theorem streamResponse_strips_content_length (resp : UpstreamResponse) :
    (streamResponseHead resp).2 = resp.status ∧
    (∀ k v, (k, v) ∈ (streamResponseHead resp).1 →
      ¬ listToLower k = "content-length".toList) ∧
    (∀ k v, (k, v) ∈ resp.headers →
      ¬ listToLower k = "content-length".toList →
      (k, v) ∈ (streamResponseHead resp).1) ∧
    (∀ k v, (k, v) ∈ (streamResponseHead resp).1 →
      (k, v) ∈ resp.headers) ∧
    (needsTransformation resp.contentType = false →
      streamResponseBodyMode resp = BodyMode.directCopy) := by
  refine ⟨rfl, ?_, ?_, ?_, ?_⟩
  · intro k v hm
    have h := (List.mem_filter.mp hm).2
    simpa using h
  · intro k v hm hne
    exact List.mem_filter.mpr ⟨hm, by simpa using hne⟩
  · intro k v hm
    exact (List.mem_filter.mp hm).1
  · intro h
    simp [streamResponseBodyMode, h]

/-- Witness for C10 on a concrete binary (video/MP2T) upstream response:
the status is forwarded, `X-Foo` survives, `Content-Length` is dropped,
and the body is streamed directly. -/
theorem streamResponse_strips_content_length_witness :
    (streamResponseHead ⟨200,
      [("Content-Length".toList, "123".toList),
       ("X-Foo".toList, "bar".toList)],
      "video/MP2T".toList, -1⟩).2 = 200 ∧
    ("X-Foo".toList, "bar".toList) ∈ (streamResponseHead ⟨200,
      [("Content-Length".toList, "123".toList),
       ("X-Foo".toList, "bar".toList)],
      "video/MP2T".toList, -1⟩).1 ∧
    ("Content-Length".toList, "123".toList) ∉ (streamResponseHead ⟨200,
      [("Content-Length".toList, "123".toList),
       ("X-Foo".toList, "bar".toList)],
      "video/MP2T".toList, -1⟩).1 ∧
    streamResponseBodyMode ⟨200,
      [("Content-Length".toList, "123".toList),
       ("X-Foo".toList, "bar".toList)],
      "video/MP2T".toList, -1⟩ = BodyMode.directCopy :=
  ⟨(streamResponse_strips_content_length ⟨200,
      [("Content-Length".toList, "123".toList),
       ("X-Foo".toList, "bar".toList)],
      "video/MP2T".toList, -1⟩).1,
   (streamResponse_strips_content_length ⟨200,
      [("Content-Length".toList, "123".toList),
       ("X-Foo".toList, "bar".toList)],
      "video/MP2T".toList, -1⟩).2.2.1 "X-Foo".toList "bar".toList
      (by decide) (by decide),
   fun hm => (streamResponse_strips_content_length ⟨200,
      [("Content-Length".toList, "123".toList),
       ("X-Foo".toList, "bar".toList)],
      "video/MP2T".toList, -1⟩).2.1 "Content-Length".toList "123".toList
      hm (by decide),
   (streamResponse_strips_content_length ⟨200,
      [("Content-Length".toList, "123".toList),
       ("X-Foo".toList, "bar".toList)],
      "video/MP2T".toList, -1⟩).2.2.2.2 (by decide)⟩

/-- Claim C9: the device-id reversal of `ReverseDeviceID` is an
involution. -/
theorem reverseDeviceID_involution (id : List Char) :
    reverseDeviceID (reverseDeviceID id) = id :=
  List.reverse_reverse id

end Claims

